import Mathlib

/-!
Verification of the LinkedIn profile ingestion backend
(`backend/app/api/linkedin.py` and `backend/app/models/profile.py`).

The Python source is shallowly embedded: dictionaries with documented
required keys become structures with required fields (accessing a
required key of a well-typed payload cannot raise `KeyError`, which the
embedding encodes by making the field total); optional keys become
`Option` fields; Python truthiness on optional strings/lists is made
explicit; raising code returns `Except`; `datetime` values are embedded
as lexicographically ordered year/month/day triples and wall-clock
instants as rationals (the arithmetic the source performs on them is
exact, so rationals are a faithful carrier).
-/

/-! ## Basic Python string operations -/

/-- `s[:-1]` on a Python string: drop the last character. -/
def strip1 (s : String) : String := ⟨s.data.dropLast⟩

/-- `s[:-2]` on a Python string: drop the last two characters. -/
def strip2 (s : String) : String := ⟨s.data.dropLast.dropLast⟩

/-- Python truthiness of an optional string (`None` and `""` are falsy). -/
def truthyS : Option String → Bool
  | none => false
  | some s => s ≠ ""

/-- Python truthiness of an optional integer (`None` and `0` are falsy). -/
def truthyI : Option Int → Bool
  | none => false
  | some n => n ≠ 0

/-- `", ".join(l)` on a Python list of strings. -/
def joinComma : List String → String
  | [] => ""
  | [s] => s
  | s :: rest => s ++ ", " ++ joinComma rest

/-- Conditional fragment for a Python `if <truthy optional string>:` guard:
empty when the optional is falsy, `f s` when it holds a nonempty `s`. -/
def optStr (o : Option String) (f : String → String) : String :=
  match o with
  | none => ""
  | some s => if s = "" then "" else f s

/-- How Python renders an optional string inside an f-string
(`None` prints as `"None"`). -/
def pyRender (o : Option String) : String :=
  match o with
  | none => "None"
  | some s => s

/-- A string that neither is empty nor ends in a newline character. -/
def GoodStr (s : String) : Prop :=
  s.data ≠ [] ∧ s.data.getLast? ≠ some '\n'

/-- An optional string field that is either absent or a `GoodStr`. -/
def NiceOpt (o : Option String) : Prop :=
  ∀ s, o = some s → GoodStr s

/-! ## Dates (`is_ongoing`, `format_date`, `format_duration`) -/

/-- A partial date object from the upstream API: required `year`,
optional `month` and `day`. -/
structure DateYMD where
  year : Int
  month : Option Int
  day : Option Int
deriving DecidableEq, Repr

/-- A `timePeriod` object: optional `startDate` and `endDate`. -/
structure TimePeriod where
  startDate : Option DateYMD
  endDate : Option DateYMD
deriving DecidableEq, Repr

/-- A `datetime.datetime` at day granularity, ordered lexicographically;
used for `datetime(end_year, end_month, 1) < datetime.now()`. -/
structure PyDateTime where
  year : Int
  month : Int
  day : Int
deriving DecidableEq, Repr

/-- Lexicographic `<` on `datetime` values. -/
def PyDateTime.lt (a b : PyDateTime) : Bool :=
  a.year < b.year ∨ (a.year = b.year ∧
    (a.month < b.month ∨ (a.month = b.month ∧ a.day < b.day)))

/-- `is_ongoing(experience)` from the source, reading the record's
`timePeriod`: no `timePeriod` or no `endDate` means ongoing; otherwise the
end date (month defaulting to 12) is compared against the current time. -/
def is_ongoing (timePeriod : Option TimePeriod) (now : PyDateTime) : Bool :=
  match timePeriod with
  | none => true
  | some tp =>
    match tp.endDate with
    | none => true
    | some end_date =>
      let end_year := end_date.year
      let end_month := end_date.month.getD 12
      if PyDateTime.lt ⟨end_year, end_month, 1⟩ now then false else true

/-- `f"{n:02d}"`: zero-pad a single positive digit to two characters. -/
def pad2 (n : Int) : String :=
  if 0 ≤ n ∧ n < 10 then "0" ++ toString n else toString n

/-- Body of `format_date` at `"year"` precision. -/
def fmtYear (date : DateYMD) : String := toString date.year

/-- Body of `format_date` at `"month"` precision
(`f"{year}-{month:02d}" if month else f"{year}"`). -/
def fmtMonth (date : DateYMD) : String :=
  if truthyI date.month then toString date.year ++ "-" ++ pad2 (date.month.getD 0)
  else toString date.year

/-- Body of `format_date` at `"day"` precision. -/
def fmtDay (date : DateYMD) : String :=
  if truthyI date.month ∧ truthyI date.day then
    toString date.year ++ "-" ++ pad2 (date.month.getD 0) ++ "-" ++ pad2 (date.day.getD 0)
  else if truthyI date.month then toString date.year ++ "-" ++ pad2 (date.month.getD 0)
  else toString date.year

/-- `format_date(date, precision)`: renders at the requested precision and
raises `ValueError` on an unrecognized precision token. -/
def format_date (date : DateYMD) (precision : String) : Except String String :=
  if precision = "year" then .ok (fmtYear date)
  else if precision = "month" then .ok (fmtMonth date)
  else if precision = "day" then .ok (fmtDay date)
  else .error "Invalid precision value. Must be year, month, or day."

/-- `format_duration(timePeriod, prefix="DURATION: ", suffix="\n")`:
missing start renders "Unknown", missing end renders "Present". -/
def format_duration (tp : TimePeriod) (pre : String := "DURATION: ")
    (suf : String := "\n") : String :=
  let start_str := match tp.startDate with
    | some d => fmtMonth d
    | none => "Unknown"
  let end_str := match tp.endDate with
    | some d => fmtMonth d
    | none => "Present"
  pre ++ start_str ++ " to " ++ end_str ++ suf

/-! ## Activity (posts) records and classification -/

/-- A `miniProfile` attribution payload: `firstName`/`lastName` required
by the classification code, `occupation` read with a `None` default. -/
structure MiniProfile where
  firstName : String
  lastName : String
  occupation : Option String
deriving DecidableEq, Repr

/-- A `miniCompany` attribution payload; `name` read with a `None` default. -/
structure MiniCompany where
  name : Option String
deriving DecidableEq, Repr

/-- One element of `actor.image.attributes`. -/
structure ImageAttribute where
  miniProfile : Option MiniProfile
  miniCompany : Option MiniCompany
deriving DecidableEq, Repr

/-- `actor.image`: an attribute list. -/
structure ActorImage where
  attributes : List ImageAttribute
deriving DecidableEq, Repr

/-- `post["actor"]`: required `urn`; the `image` key may be absent in a
raw payload, which the classification code does not guard against. -/
structure Actor where
  urn : String
  image : Option ActorImage
deriving DecidableEq, Repr

/-- One entry of `totalSocialActivityCounts.reactionTypeCounts`. -/
structure Reaction where
  count : Int
  reactionType : String
deriving DecidableEq, Repr

/-- `post["socialDetail"]["totalSocialActivityCounts"]`. -/
structure SocialCounts where
  numComments : Int
  numShares : Int
  reactionTypeCounts : List Reaction
deriving DecidableEq, Repr

/-- `post["resharedUpdate"]`: `commentary` is the resolved
`["commentary"]["text"]["text"]` chain (`none` when any key is missing,
matching the source's `try/except KeyError` giving `None`). -/
structure ResharedUpdate where
  commentary : Option String
  actor : Actor
deriving DecidableEq, Repr

/-- One activity record. `commentary` is the resolved
`["commentary"]["text"]["text"]` chain as for `ResharedUpdate`;
`socialDetail` may be absent (its access is unguarded in the source). -/
structure Post where
  actor : Actor
  resharedUpdate : Option ResharedUpdate
  socialDetail : Option SocialCounts
  commentary : Option String
deriving DecidableEq, Repr

/-- The three-way activity kind. -/
inductive PostType
  | post
  | repost
  | reshare
deriving DecidableEq, Repr

/-- Outcome of the classification step: the kind plus the attribution
variables as the loop body leaves them (`orig_content` starts as `""`). -/
structure Classified where
  post_type : PostType
  orig_content : Option String
  orig_author_name : Option String
  orig_author_headline : Option String
  orig_company_name : Option String
deriving DecidableEq, Repr

/-- `post["actor"]["image"]["attributes"][0]`: raises `KeyError` when the
image is absent and `IndexError` when the attribute list is empty. -/
def firstAttribute (a : Actor) : Except String ImageAttribute :=
  match a.image with
  | none => .error "KeyError: image"
  | some img =>
    match img.attributes with
    | [] => .error "IndexError: list index out of range"
    | attr :: _ => .ok attr

/-- The two-branch attribution extraction from the first image attribute:
person marker, else organization marker, else all-null. Returns
`(orig_author_name, orig_author_headline, orig_company_name)`. -/
def attribution (attr : ImageAttribute) : Option String × Option String × Option String :=
  match attr.miniProfile with
  | some mp => (some (mp.firstName ++ " " ++ mp.lastName), mp.occupation, none)
  | none =>
    match attr.miniCompany with
    | some mc => (none, none, mc.name)
    | none => (none, none, none)

/-- The classification step of the posts loop (source lines 437-462):
actor-identity mismatch means repost, else a `resharedUpdate` payload
means reshare, else an original post. -/
def classify_post (member_urn : String) (post : Post) : Except String Classified :=
  if post.actor.urn ≠ member_urn then
    match firstAttribute post.actor with
    | .error e => .error e
    | .ok attr =>
      let (n, h, c) := attribution attr
      .ok ⟨.repost, some "", n, h, c⟩
  else
    match post.resharedUpdate with
    | some ru =>
      match firstAttribute ru.actor with
      | .error e => .error e
      | .ok attr =>
        let (n, h, c) := attribution attr
        .ok ⟨.reshare, ru.commentary, n, h, c⟩
    | none => .ok ⟨.post, some "", none, none, none⟩

/-- `{orig_author_name if orig_author_name else orig_company_name}`:
Python truthiness choice rendered into the f-string. -/
def displayAttribution (name company : Option String) : String :=
  if truthyS name then pyRender name else pyRender company

/-- The text block rendered for one successfully classified post,
including the trailing blank-line separator. -/
def postBlock (cls : Classified) (sd : SocialCounts) (post_commentary : Option String) : String :=
  let attribution_label := if truthyS cls.orig_company_name then "COMPANY" else "AUTHOR"
  let reaction_str := joinComma (sd.reactionTypeCounts.map
    (fun r => toString r.count ++ " (" ++ r.reactionType ++ ")"))
  (if cls.post_type = PostType.post then "[Posted]\n" else "")
  ++ (if cls.post_type = PostType.reshare then
        "[Reshared a post]\n" ++ "RESHARED FROM:\n- " ++ attribution_label ++ ": "
          ++ displayAttribution cls.orig_author_name cls.orig_company_name ++ "\n"
          ++ optStr cls.orig_author_headline (fun hl => "- HEADLINE: " ++ hl ++ "\n")
      else "")
  ++ (if cls.post_type = PostType.repost then
        "[Reposted a post]\n" ++ "REPOSTED FROM:\n- " ++ attribution_label ++ ": "
          ++ displayAttribution cls.orig_author_name cls.orig_company_name ++ "\n"
          ++ optStr cls.orig_author_headline (fun hl => "- HEADLINE: " ++ hl ++ "\n")
      else "")
  ++ "REACTIONS: " ++ reaction_str ++ "\n"
  ++ "COMMENTS: " ++ toString sd.numComments ++ "\n"
  ++ "SHARES: " ++ toString sd.numShares ++ "\n"
  ++ (if cls.post_type = PostType.reshare ∧ truthyS cls.orig_content then
        "ORIGINAL CONTENT:\n\"\"\"\n" ++ cls.orig_content.getD "" ++ "\n\"\"\"\n" else "")
  ++ optStr post_commentary (fun pc =>
        (if cls.post_type = PostType.post then "CONTENT:"
         else if cls.post_type = PostType.repost then "ORIGINAL CONTENT:"
         else "RESHARE COMMENTARY:")
        ++ "\n\"\"\"\n" ++ pc ++ "\n\"\"\"\n")
  ++ "\n"

/-- One iteration of the posts loop: classify, then read the (unguarded)
`socialDetail` counters, then render the block. -/
def format_post (member_urn : String) (p : Post) : Except String String :=
  match classify_post member_urn p with
  | .error e => .error e
  | .ok cls =>
    match p.socialDetail with
    | none => .error "KeyError: socialDetail"
    | some sd => .ok (postBlock cls sd p.commentary)

/-- The posts loop: accumulate blocks, propagating the first exception. -/
def postsFold (member_urn : String) (l : List Post) (acc : String) : Except String String :=
  match l with
  | [] => .ok acc
  | p :: rest =>
    match format_post member_urn p with
    | .error e => .error e
    | .ok b => postsFold member_urn rest (acc ++ b)

/-- The body of the posts `try:` block: empty section when the posts
payload is falsy, otherwise header plus blocks with the final separator
trimmed; an error models an exception escaping to the blanket handler. -/
def posts_section (raw_posts : Option (List Post)) (member_urn : String) :
    Except String String :=
  match raw_posts with
  | none => .ok ""
  | some l =>
    if l.isEmpty then .ok ""
    else
      match postsFold member_urn l "# POSTS\n" with
      | .error e => .error e
      | .ok s => .ok (strip2 s)

/-- The fixed failure placeholder installed by the blanket
`except Exception` around the posts section. -/
def postsFailureText : String := "# POSTS\nFailed to process posts data\n"

/-- The posts section as stored in the response: the rendered section, or
the fixed failure placeholder when any exception was raised. -/
def posts_final (raw_posts : Option (List Post)) (member_urn : String) : String :=
  match posts_section raw_posts member_urn with
  | .ok s => s
  | .error _ => postsFailureText

/-! ## Profile facet records -/

/-- One `experience` entry. -/
structure Experience where
  title : String
  companyName : Option String
  timePeriod : Option TimePeriod
  description : Option String
deriving DecidableEq, Repr

/-- One `education` entry. -/
structure Education where
  schoolName : String
  degreeName : Option String
  fieldOfStudy : Option String
  timePeriod : Option TimePeriod
  grade : Option String
  activities : Option String
  description : Option String
deriving DecidableEq, Repr

/-- One `projects` entry; only the length of `members` is used
(`len(project.get("members", [True]))`). -/
structure Project where
  title : String
  members : Option (List Unit)
  timePeriod : Option TimePeriod
  description : Option String
deriving DecidableEq, Repr

/-- One `honors` entry. -/
structure Honor where
  title : String
  issuer : Option String
  issueDate : Option DateYMD
  description : Option String
deriving DecidableEq, Repr

/-- One `skills` entry. -/
structure Skill where
  name : String
deriving DecidableEq, Repr

/-- One `languages` entry. -/
structure LangEntry where
  name : String
  proficiency : Option String
deriving DecidableEq, Repr

/-- A certification `timePeriod`: the formatting code reads
`certification["timePeriod"]["startDate"]` unconditionally, so the start
date is required here. -/
structure CertTimePeriod where
  startDate : DateYMD
deriving DecidableEq, Repr

/-- One `certifications` entry. -/
structure Certification where
  name : String
  authority : Option String
  timePeriod : Option CertTimePeriod
  description : Option String
deriving DecidableEq, Repr

/-- One `publications` entry. -/
structure Publication where
  name : String
  authors : Option (List Unit)
  date : Option DateYMD
  description : Option String
deriving DecidableEq, Repr

/-- One `volunteer` entry (`role` and `companyName` are both read
unconditionally). -/
structure Volunteer where
  role : String
  companyName : String
  cause : Option String
  timePeriod : Option TimePeriod
  description : Option String
deriving DecidableEq, Repr

/-- The raw profile payload with the keys the transform reads. A facet
list that is absent in the payload and one that is present but empty are
both falsy in Python, so both are embedded as `[]`. -/
structure RawProfile where
  firstName : String
  middleName : Option String
  lastName : String
  headline : Option String
  geoLocationName : Option String
  geoCountryName : Option String
  summary : Option String
  experience : List Experience
  education : List Education
  projects : List Project
  honors : List Honor
  skills : List Skill
  languages : List LangEntry
  certifications : List Certification
  publications : List Publication
  volunteer : List Volunteer
  member_urn : String
deriving DecidableEq, Repr

/-! ## Section formatters -/

/-- The common list-section shape: empty string for a falsy facet,
otherwise the header plus one block per entry with the final two
separator characters trimmed (`profile_data[...][:-2]`). -/
def listSection (hdr : String) (f : α → String) (l : List α) : String :=
  if l.isEmpty then "" else strip2 (l.foldl (fun acc e => acc ++ f e) hdr)

/-- `[Current]`/`[Previous]` status line. -/
def statusLine (timePeriod : Option TimePeriod) (now : PyDateTime) : String :=
  if is_ongoing timePeriod now then "[Current]\n" else "[Previous]\n"

/-- The optional `DURATION:` line (`if entry.get("timePeriod", False)`). -/
def durationPiece (timePeriod : Option TimePeriod) : String :=
  match timePeriod with
  | some tp => format_duration tp "DURATION: " "\n"
  | none => ""

/-- A free-text block wrapped in triple-quote delimiters. -/
def wrapBlock (label body : String) : String :=
  label ++ "\n\"\"\"\n" ++ body ++ "\n\"\"\"\n"

/-- One experience block, including the trailing separator. -/
def experienceBlock (now : PyDateTime) (e : Experience) : String :=
  statusLine e.timePeriod now
  ++ e.title ++ optStr e.companyName (fun c => " at " ++ c) ++ "\n"
  ++ durationPiece e.timePeriod
  ++ optStr e.description (fun d => wrapBlock "DESCRIPTION:" d)
  ++ "\n"

/-- One education block, including the trailing separator. -/
def educationBlock (now : PyDateTime) (ed : Education) : String :=
  statusLine ed.timePeriod now
  ++ "INSTITUTION: " ++ ed.schoolName ++ "\n"
  ++ optStr ed.degreeName (fun d => "DEGREE: " ++ d ++ "\n")
  ++ optStr ed.fieldOfStudy (fun f => "FIELD OF STUDY: " ++ f ++ "\n")
  ++ durationPiece ed.timePeriod
  ++ optStr ed.grade (fun g => "GRADE: " ++ g ++ "\n")
  ++ optStr ed.activities (fun a => wrapBlock "ACTIVITIES AND SOCIETIES:" a)
  ++ optStr ed.description (fun d => wrapBlock "DESCRIPTION:" d)
  ++ "\n"

/-- One projects block, including the trailing separator. -/
def projectBlock (now : PyDateTime) (full_name : String) (pr : Project) : String :=
  let num_members := (pr.members.getD [()]).length
  statusLine pr.timePeriod now
  ++ "NAME: " ++ pr.title ++ "\n"
  ++ "MEMBERS: " ++ full_name
  ++ (if num_members > 1 then " and " ++ toString (num_members - 1) ++ " other(s)" else "")
  ++ "\n"
  ++ durationPiece pr.timePeriod
  ++ optStr pr.description (fun d => wrapBlock "DESCRIPTION:" d)
  ++ "\n"

/-- One honors block, including the trailing separator. -/
def honorBlock (h : Honor) : String :=
  "NAME: " ++ h.title ++ "\n"
  ++ optStr h.issuer (fun i => "ISSUED BY: " ++ i ++ "\n")
  ++ (match h.issueDate with
      | some d => "ISSUE DATE: " ++ fmtDay d ++ "\n"
      | none => "")
  ++ optStr h.description (fun d => wrapBlock "DESCRIPTION:" d)
  ++ "\n"

/-- One certifications block, including the trailing separator. -/
def certificationBlock (c : Certification) : String :=
  "NAME: " ++ c.name ++ "\n"
  ++ optStr c.authority (fun a => "ISSUED BY: " ++ a ++ "\n")
  ++ (match c.timePeriod with
      | some tp => "ISSUE DATE: " ++ fmtDay tp.startDate ++ "\n"
      | none => "")
  ++ optStr c.description (fun d => wrapBlock "DESCRIPTION:" d)
  ++ "\n"

/-- One publications block, including the trailing separator. -/
def publicationBlock (full_name : String) (pub : Publication) : String :=
  "TITLE: " ++ pub.name ++ "\n"
  ++ (match pub.authors with
      | some al =>
        if al.isEmpty then "" else
          "AUTHORS: " ++ full_name
          ++ (if al.length > 1 then " and " ++ toString (al.length - 1) ++ " other(s)" else "")
          ++ "\n"
      | none => "")
  ++ (match pub.date with
      | some d => "PUBLICATION DATE: " ++ fmtDay d ++ "\n"
      | none => "")
  ++ optStr pub.description (fun d => wrapBlock "DESCRIPTION:" d)
  ++ "\n"

/-- One volunteer block, including the trailing separator. -/
def volunteerBlock (now : PyDateTime) (v : Volunteer) : String :=
  statusLine v.timePeriod now
  ++ v.role ++ " at " ++ v.companyName ++ "\n"
  ++ optStr v.cause (fun c => "CAUSE: " ++ c ++ "\n")
  ++ durationPiece v.timePeriod
  ++ optStr v.description (fun d => wrapBlock "DESCRIPTION:" d)
  ++ "\n"

/-- One languages block; the separator here is `", "` and the section
trim removes the final comma-space. -/
def languageBlock (lg : LangEntry) : String :=
  lg.name ++ optStr lg.proficiency (fun p => " (" ++ p ++ ")") ++ ", "

/-- The skills section: a single comma-joined line under the header. -/
def skills_section (skills : List Skill) : String :=
  if skills.isEmpty then "" else "# SKILLS\n" ++ joinComma (skills.map Skill.name)

/-- `full_name` assembly (first, optional middle, last). -/
def full_name_of (p : RawProfile) : String :=
  p.firstName ++ " " ++ optStr p.middleName (fun m => m ++ " ") ++ p.lastName

/-- The summary header block, with its final newline stripped
(`profile_data["summary"][:-1]`). -/
def summary_of (p : RawProfile) (full_name : String) : String :=
  strip1 ("PROFILE OF: " ++ full_name ++ "\n"
    ++ (if p.headline.getD "--" ≠ "--" then
          "HEADLINE: " ++ p.headline.getD "--" ++ "\n" else "")
    ++ "LOCATION: " ++ optStr p.geoLocationName (fun g => g ++ ", ")
    ++ p.geoCountryName.getD "" ++ "\n"
    ++ optStr p.summary (fun s => "\n# ABOUT\n\"\"\"\n" ++ s ++ "\n\"\"\"\n"))

/-! ## The transform and the response record -/

/-- The `RawData` pydantic model: raw inputs retained verbatim. -/
structure RawData where
  profile : RawProfile
  posts : Option (List Post)
deriving DecidableEq, Repr

/-- The `ProfileResponse` pydantic model. -/
structure ProfileResponse where
  full_name : String
  summary : String
  experience : String
  education : String
  honors : String
  certifications : String
  projects : String
  publications : String
  volunteer : String
  skills : String
  languages : String
  posts : String
  raw : RawData
deriving DecidableEq, Repr

/-- The formatting part of `_get_ingest` (source lines 240-502): builds
every section from the fetched payloads. Required dictionary keys are
total fields of the typed payloads, so the `ParseException` branch of the
source cannot fire here; the posts section alone carries its blanket
degrade-to-placeholder handler via `posts_final`. -/
def ingest_transform (raw_profile_data : RawProfile) (raw_posts_data : Option (List Post))
    (now : PyDateTime) : ProfileResponse :=
  let full_name := full_name_of raw_profile_data
  { full_name := full_name
    summary := summary_of raw_profile_data full_name
    experience := listSection "# EXPERIENCES\n" (experienceBlock now) raw_profile_data.experience
    education := listSection "# EDUCATION\n" (educationBlock now) raw_profile_data.education
    projects := listSection "# PROJECTS\n" (projectBlock now full_name) raw_profile_data.projects
    honors := listSection "# HONORS\n" honorBlock raw_profile_data.honors
    skills := skills_section raw_profile_data.skills
    languages := listSection "# LANGUAGES\n" languageBlock raw_profile_data.languages
    certifications := listSection "# LICENSES AND CERTIFICATIONS\n" certificationBlock
      raw_profile_data.certifications
    publications := listSection "# PUBLICATIONS\n" (publicationBlock full_name)
      raw_profile_data.publications
    volunteer := listSection "# VOLUNTEER\n" (volunteerBlock now) raw_profile_data.volunteer
    posts := posts_final raw_posts_data raw_profile_data.member_urn
    raw := ⟨raw_profile_data, raw_posts_data⟩ }

/-! ## Fetch stage and error taxonomy -/

/-- The two request-fatal error classes raised by `_get_ingest`. -/
inductive IngestError
  | fetchExc (facet : String)
  | parseExc (msg : String)
deriving DecidableEq, Repr

/-- `get_profile`: the upstream client either raises (`.error`), returns
a falsy payload (`.ok none` — "LinkedIn profile not found" is raised), or
returns data. -/
def get_profile (upstream : Except String (Option RawProfile)) : Except String RawProfile :=
  match upstream with
  | .error e => .error e
  | .ok none => .error "LinkedIn profile not found"
  | .ok (some d) => .ok d

/-- `get_profile_posts`: as `get_profile`; an empty list is falsy too. -/
def get_profile_posts (upstream : Except String (Option (List Post))) :
    Except String (List Post) :=
  match upstream with
  | .error e => .error e
  | .ok none => .error "Failed to get profile posts"
  | .ok (some l) => if l.isEmpty then .error "Failed to get profile posts" else .ok l

/-- The `raw_posts_data` value after the posts fetch: the fetched list,
or `None` when `get_profile_posts` raised (posts are not critical). -/
def resolve_posts (postsUpstream : Except String (Option (List Post))) :
    Option (List Post) :=
  match get_profile_posts postsUpstream with
  | .error _ => none
  | .ok l => some l

/-- `_get_ingest` (source lines 214-502): profile fetch failure is fatal
as `FetchException("profile")`; posts fetch failure degrades to `None`;
then the transform runs. -/
def ingest_pipeline (profileUpstream : Except String (Option RawProfile))
    (postsUpstream : Except String (Option (List Post))) (now : PyDateTime) :
    Except IngestError ProfileResponse :=
  match get_profile profileUpstream with
  | .error _ => .error (.fetchExc "profile")
  | .ok raw_profile_data =>
    .ok (ingest_transform raw_profile_data (resolve_posts postsUpstream) now)

/-! ## TTL cache -/

/-- `CacheEntry`: creation and expiry instants in minutes on a rational
timeline. -/
structure CacheEntry where
  data : ProfileResponse
  created_at : ℚ
  expires_at : ℚ
deriving DecidableEq

/-- `CacheEntry(data, ttl_minutes)` evaluated at instant `nowQ`. -/
def CacheEntry.make (d : ProfileResponse) (ttl_minutes nowQ : ℚ) : CacheEntry :=
  { data := d, created_at := nowQ, expires_at := nowQ + ttl_minutes }

/-- `is_expired`: `datetime.now() > self.expires_at` (strict). -/
def CacheEntry.is_expired (e : CacheEntry) (nowQ : ℚ) : Bool :=
  e.expires_at < nowQ

/-- The `_cache` dictionary. -/
def CacheMap : Type := String → Option CacheEntry

/-- The initial empty cache. -/
def emptyCache : CacheMap := fun _ => none

/-- `_get_from_cache`: fresh hit returns the data; a stale entry is
deleted and the lookup misses. Returns the result and the updated map. -/
def get_from_cache (c : CacheMap) (profile_id : String) (nowQ : ℚ) :
    Option ProfileResponse × CacheMap :=
  match c profile_id with
  | none => (none, c)
  | some entry =>
    if entry.is_expired nowQ = false then (some entry.data, c)
    else (none, fun k => if k = profile_id then none else c k)

/-- `_add_to_cache`: store a fresh entry under the identifier. -/
def add_to_cache (c : CacheMap) (profile_id : String) (d : ProfileResponse)
    (ttl_minutes nowQ : ℚ) : CacheMap :=
  fun k => if k = profile_id then some (CacheEntry.make d ttl_minutes nowQ) else c k

/-! ## Queue status and the admission model -/

/-- `get_queue_status`: the single-request wait-time overestimate and the
completion-timestamp heuristic. `0.5` is exactly representable and all
float arithmetic the source performs here is exact, so rationals model
it faithfully. -/
def get_queue_status (delayOn noiseOn : Bool) (maxDelay : ℚ) (count nowT : Int) :
    Int × ℚ :=
  let s0 : ℚ := 4
  let s1 : ℚ := if delayOn then s0 + maxDelay else s0
  let s2 : ℚ := if noiseOn then s1 + (2 + maxDelay) * (1 / 2) * 2 else s1
  (count, (nowT : ℚ) + ((count : ℚ) + 1) * s2)

/-- Observable queue events of one `get_ingest` call: counter writes and
admission-slot transitions, in program order. -/
inductive QEv
  | counterSet (v : Int)
  | lockAcquire
  | lockRelease
deriving DecidableEq, Repr

/-- `get_ingest` for a single request (no competing waiter holds the
lock): cache probe, then counter increment, slot acquisition, the
pipeline, caching on success, and the counter decrement on both exit
paths. Returns the call result, the final cache, the final counter, and
the event trace. -/
def get_ingest_model (cacheEnabled : Bool) (cache : CacheMap) (count0 : Int)
    (public_id : String) (ttl nowQ : ℚ)
    (profileUpstream : Except String (Option RawProfile))
    (postsUpstream : Except String (Option (List Post))) (now : PyDateTime) :
    Except IngestError ProfileResponse × CacheMap × Int × List QEv :=
  let checked := if cacheEnabled then get_from_cache cache public_id nowQ else (none, cache)
  match checked.1 with
  | some cached_data => (.ok cached_data, checked.2, count0, [])
  | none =>
    match ingest_pipeline profileUpstream postsUpstream now with
    | .ok profile_response =>
      let cache2 := if cacheEnabled then
          add_to_cache checked.2 public_id profile_response ttl nowQ
        else checked.2
      (.ok profile_response, cache2, count0 + 1 - 1,
        [.counterSet (count0 + 1), .lockAcquire, .counterSet (count0 + 1 - 1), .lockRelease])
    | .error e =>
      (.error e, checked.2, count0 + 1 - 1,
        [.counterSet (count0 + 1), .lockAcquire, .counterSet (count0 + 1 - 1), .lockRelease])

/-! ## Shape predicates for sections -/

/-- A well-formed section in the sense of C7: empty, or a block that
begins with the section header and does not end in a newline. -/
def SectionOk (hdr s : String) : Prop :=
  s = "" ∨ (hdr.data <+: s.data ∧ s.data ≠ [] ∧ s.data.getLast? ≠ some '\n')

/-- A string ending in a non-newline character followed by exactly one
newline: the shape of a finished content line. -/
def LineEnded (s : String) : Prop :=
  ∃ m c, s.data = m ++ [c, '\n'] ∧ c ≠ '\n'

/-- A loop block: a non-newline character followed by exactly two
trailing separator characters, which the section trim removes. -/
def GoodBlock (s : String) : Prop :=
  ∃ m c x y, s.data = m ++ [c, x, y] ∧ c ≠ '\n'

/-- Sanity of an experience entry's inline text fields. -/
def SaneExperience (e : Experience) : Prop :=
  GoodStr e.title ∧ NiceOpt e.companyName

/-- Sanity of an education entry's inline text fields. -/
def SaneEducation (ed : Education) : Prop :=
  GoodStr ed.schoolName ∧ NiceOpt ed.degreeName ∧ NiceOpt ed.fieldOfStudy ∧ NiceOpt ed.grade

/-- Sanity of an honors entry's inline text fields. -/
def SaneHonor (h : Honor) : Prop :=
  GoodStr h.title ∧ NiceOpt h.issuer

/-- Sanity of a certifications entry's inline text fields. -/
def SaneCertification (c : Certification) : Prop :=
  GoodStr c.name ∧ NiceOpt c.authority

/-- Sanity of a publications entry's inline text fields. -/
def SanePublication (pub : Publication) : Prop :=
  GoodStr pub.name

/-- Sanity of a volunteer entry's inline text fields. -/
def SaneVolunteer (v : Volunteer) : Prop :=
  GoodStr v.companyName ∧ NiceOpt v.cause

/-- Sanity of the inline text fields the section formatters can leave at
the very end of a section: nonempty, no trailing newline. -/
def SaneProfile (p : RawProfile) : Prop :=
  GoodStr p.lastName ∧
  (∀ e ∈ p.experience, SaneExperience e) ∧
  (∀ ed ∈ p.education, SaneEducation ed) ∧
  (∀ h ∈ p.honors, SaneHonor h) ∧
  (∀ c ∈ p.certifications, SaneCertification c) ∧
  (∀ pub ∈ p.publications, SanePublication pub) ∧
  (∀ v ∈ p.volunteer, SaneVolunteer v) ∧
  (∀ sk ∈ p.skills, GoodStr sk.name) ∧
  (∀ lg ∈ p.languages, GoodStr lg.name)

/-! ## Concrete sample payloads -/

/-- A minimal well-typed raw profile. -/
def sampleProfile : RawProfile :=
  { firstName := "Ada"
    middleName := none
    lastName := "Love"
    headline := none
    geoLocationName := none
    geoCountryName := none
    summary := none
    experience := []
    education := []
    projects := []
    honors := []
    skills := []
    languages := []
    certifications := []
    publications := []
    volunteer := []
    member_urn := "urn:me" }

/-- A concrete reference instant. -/
def sampleNow : PyDateTime := ⟨2026, 1, 1⟩

/-- A concrete transformed document for cache round-trip statements. -/
def sampleDoc : ProfileResponse := ingest_transform sampleProfile none sampleNow

/-- An own-actor activity record with no `socialDetail` key: formatting
it raises `KeyError` inside the posts loop. -/
def badPost : Post :=
  { actor := ⟨"urn:me", none⟩
    resharedUpdate := none
    socialDetail := none
    commentary := none }

/-- An activity record whose actor differs from the subject and whose
actor carries no `image` payload: the classification's unguarded
`attributes[0]` access raises. -/
def mismatchPostNoAttrs : Post :=
  { actor := ⟨"urn:other", none⟩
    resharedUpdate := none
    socialDetail := some ⟨0, 0, []⟩
    commentary := none }

/-- An activity record whose actor differs from the subject and whose
first image attribute carries neither a person nor a company marker. -/
def mismatchPostAttrs : Post :=
  { actor := ⟨"urn:other", some ⟨[⟨none, none⟩]⟩⟩
    resharedUpdate := none
    socialDetail := some ⟨0, 0, []⟩
    commentary := none }

/-- A concrete `resharedUpdate` payload. -/
def sampleReshare : ResharedUpdate :=
  { commentary := some "Great read"
    actor := ⟨"urn:third", some ⟨[⟨none, some ⟨some "Acme"⟩⟩]⟩⟩ }

/-- A raw profile with one entry in every facet. -/
def richProfile : RawProfile :=
  { firstName := "Ada"
    middleName := some "M"
    lastName := "Love"
    headline := some "Engineer"
    geoLocationName := some "Turin"
    geoCountryName := some "Italy"
    summary := some "Hi"
    experience := [⟨"Dev", some "Acme", some ⟨some ⟨2020, some 1, none⟩, none⟩, some "did things"⟩]
    education := [⟨"Uni", some "BSc", none, none, none, none, none⟩]
    projects := [⟨"Proj", some [(), ()], none, none⟩]
    honors := [⟨"Prize", none, some ⟨2021, some 5, some 2⟩, none⟩]
    skills := [⟨"Lean"⟩, ⟨"Python"⟩]
    languages := [⟨"English", some "native"⟩]
    certifications := [⟨"Cert", none, none, none⟩]
    publications := [⟨"Paper", none, none, none⟩]
    volunteer := [⟨"Helper", "NGO", none, none, none⟩]
    member_urn := "urn:me" }

/-! ## General string lemmas -/

theorem data_app (a b : String) : (a ++ b).data = a.data ++ b.data := by
  cases a; cases b; rfl

theorem str_ext (a b : String) (h : a.data = b.data) : a = b := by
  cases a
  cases b
  exact congrArg String.mk h

theorem str_append_assoc (a b c : String) : a ++ b ++ c = a ++ (b ++ c) := by
  apply str_ext
  simp only [data_app, List.append_assoc]

theorem getLast?_cons_ne (a : α) (l : List α) (h : l ≠ []) :
    (a :: l).getLast? = l.getLast? := by
  cases l with
  | nil => exact absurd rfl h
  | cons b t => exact List.getLast?_cons_cons

theorem goodStr_iff (s : String) :
    GoodStr s ↔ ∃ m c, s.data = m ++ [c] ∧ c ≠ '\n' := by
  constructor
  · rintro ⟨h1, h2⟩
    refine ⟨s.data.dropLast, s.data.getLast h1, ?_, ?_⟩
    · exact (List.dropLast_concat_getLast h1).symm
    · intro hc
      exact h2 (by rw [List.getLast?_eq_getLast _ h1, hc])
  · rintro ⟨m, c, hm, hc⟩
    refine ⟨by simp [hm], ?_⟩
    rw [hm, List.getLast?_concat]
    simp [hc]

theorem goodStr_append (a b : String) (hb : GoodStr b) : GoodStr (a ++ b) := by
  rw [goodStr_iff] at hb ⊢
  obtain ⟨m, c, hm, hc⟩ := hb
  exact ⟨a.data ++ m, c, by rw [data_app, hm, List.append_assoc], hc⟩

/-! ## Digit rendering facts (for `f"{year}"`, `f"{month:02d}"`, counts) -/

theorem toDigitsCore_getLast? (b fuel n : Nat) (acc : List Char) (h : acc ≠ []) :
    (Nat.toDigitsCore b fuel n acc).getLast? = acc.getLast? := by
  induction fuel generalizing n acc with
  | zero => rfl
  | succ f ih =>
    have hstep : Nat.toDigitsCore b (f + 1) n acc =
        if n / b = 0 then Nat.digitChar (n % b) :: acc
        else Nat.toDigitsCore b f (n / b) (Nat.digitChar (n % b) :: acc) := rfl
    rw [hstep]
    split
    · exact getLast?_cons_ne _ _ h
    · rw [ih _ _ (by simp), getLast?_cons_ne _ _ h]

theorem digitChar_ne_newline (m : Nat) (hm : m < 10) : Nat.digitChar m ≠ '\n' := by
  interval_cases m <;> decide

theorem toDigits_getLast? (n : Nat) :
    (Nat.toDigits 10 n).getLast? = some (Nat.digitChar (n % 10)) := by
  have hstep : Nat.toDigits 10 n =
      if n / 10 = 0 then [Nat.digitChar (n % 10)]
      else Nat.toDigitsCore 10 n (n / 10) [Nat.digitChar (n % 10)] := rfl
  rw [hstep]
  split
  · rfl
  · rw [toDigitsCore_getLast? _ _ _ _ (by simp)]
    rfl

theorem goodStr_natRepr (n : Nat) : GoodStr (Nat.repr n) := by
  have h : (Nat.repr n).data = Nat.toDigits 10 n := rfl
  constructor
  · rw [h]
    intro hnil
    have := toDigits_getLast? n
    rw [hnil] at this
    simp at this
  · rw [h, toDigits_getLast? n]
    simp only [ne_eq, Option.some.injEq]
    exact digitChar_ne_newline (n % 10) (Nat.mod_lt n (by omega))

theorem goodStr_natStr (n : Nat) : GoodStr (toString n) := goodStr_natRepr n

theorem goodStr_intStr (n : Int) : GoodStr (toString n) := by
  cases n with
  | ofNat m => exact goodStr_natRepr m
  | negSucc m => exact goodStr_append _ _ (goodStr_natRepr (m + 1))

/-! ## Date formatting lemmas -/

theorem format_date_month (d : DateYMD) : format_date d "month" = .ok (fmtMonth d) := rfl

theorem format_date_day (d : DateYMD) : format_date d "day" = .ok (fmtDay d) := rfl

theorem pyDateTime_lt_asymm (a b : PyDateTime) (h : PyDateTime.lt a b = true) :
    PyDateTime.lt b a = false := by
  simp only [PyDateTime.lt, decide_eq_true_eq] at h
  simp only [PyDateTime.lt, decide_eq_false_iff_not]
  omega

theorem goodStr_pad2 (n : Int) : GoodStr (pad2 n) := by
  unfold pad2
  split
  · exact goodStr_append _ _ (goodStr_intStr n)
  · exact goodStr_intStr n

theorem goodStr_fmtMonth (d : DateYMD) : GoodStr (fmtMonth d) := by
  unfold fmtMonth
  split
  · exact goodStr_append _ _ (goodStr_pad2 _)
  · exact goodStr_intStr _

theorem goodStr_fmtDay (d : DateYMD) : GoodStr (fmtDay d) := by
  unfold fmtDay
  split
  · exact goodStr_append _ _ (goodStr_pad2 _)
  · split
    · exact goodStr_append _ _ (goodStr_pad2 _)
    · exact goodStr_intStr _

/-- C8: an end date of year 2020 with no month is treated as December 2020;
`is_ongoing` returns false against a current time after 2020-12-01 and true
against a current time before it. -/
theorem c8_is_ongoing_year_only (now : PyDateTime) :
    (PyDateTime.lt ⟨2020, 12, 1⟩ now = true →
      is_ongoing (some ⟨none, some ⟨2020, none, none⟩⟩) now = false) ∧
    (PyDateTime.lt now ⟨2020, 12, 1⟩ = true →
      is_ongoing (some ⟨none, some ⟨2020, none, none⟩⟩) now = true) := by
  constructor
  · intro h
    simp [is_ongoing, h]
  · intro h
    simp [is_ongoing, pyDateTime_lt_asymm _ _ h]

theorem c8_is_ongoing_year_only_witness :
    is_ongoing (some ⟨none, some ⟨2020, none, none⟩⟩) ⟨2021, 1, 1⟩ = false ∧
    is_ongoing (some ⟨none, some ⟨2020, none, none⟩⟩) ⟨2020, 6, 1⟩ = true :=
  ⟨(c8_is_ongoing_year_only ⟨2021, 1, 1⟩).1 (by decide),
   (c8_is_ongoing_year_only ⟨2020, 6, 1⟩).2 (by decide)⟩

theorem append_to_present (x suf : String) :
    x ++ " to " ++ "Present" ++ suf = (x ++ " ") ++ ("to Present" ++ suf) := by
  apply str_ext
  simp only [data_app, List.append_assoc]
  congr 1

/-- C9 counterexample: with the source's default suffix `"\n"`, a duration
with no end date renders as `"DURATION: Unknown to Present\n"`, which does
not end in `"to Present"` (no decomposition with that suffix exists). -/
theorem c9_counterexample :
    format_duration ⟨none, none⟩ "DURATION: " "\n" = "DURATION: Unknown to Present\n" ∧
    ¬ ∃ a, ("DURATION: Unknown to Present\n" : String) = a ++ "to Present" := by
  refine ⟨rfl, ?_⟩
  rintro ⟨a, ha⟩
  have h2 := congrArg (fun s : String => s.data.getLast?) ha
  simp only [data_app, List.getLast?_append] at h2
  rw [show (("to Present" : String).data.getLast?) = some 't' from rfl] at h2
  rw [show Option.or (some 't') (a.data.getLast?) = some 't' from rfl] at h2
  exact absurd h2 (by decide)

/-- C9 (amended): for every duration window with no end date, the rendered
string is some prefix followed by `"to Present"` followed by the suffix
argument; in particular it ends in `"to Present"` exactly when the suffix
is empty (the source's default suffix is `"\n"`). -/
theorem c9_duration_present (tp : TimePeriod) (pre suf : String)
    (h : tp.endDate = none) :
    ∃ a, format_duration tp pre suf = a ++ ("to Present" ++ suf) := by
  obtain ⟨sd, ed⟩ := tp
  subst h
  cases sd with
  | none => exact ⟨pre ++ "Unknown" ++ " ", append_to_present _ _⟩
  | some d => exact ⟨pre ++ fmtMonth d ++ " ", append_to_present _ _⟩

theorem c9_duration_present_witness :
    (⟨some ⟨2020, some 1, none⟩, none⟩ : TimePeriod).endDate = none ∧
    ∃ a, format_duration ⟨some ⟨2020, some 1, none⟩, none⟩ "DURATION: " "" =
      a ++ ("to Present" ++ "") :=
  ⟨rfl, c9_duration_present ⟨some ⟨2020, some 1, none⟩, none⟩ "DURATION: " "" rfl⟩

/-! ## Queue status (C6) -/

/-- C6: `queue_status` returns the current depth and an integer
completion estimate `now + (depth+1) * singleWaitTime`, where
`singleWaitTime` is the fixed 4-second overhead, plus the configured
maximum delay when pacing is on, plus a `2 + MAX_DELAY` noise allowance
when noise is on. -/
theorem c6_queue_status (delayOn noiseOn : Bool) (m count nowT : Int) :
    get_queue_status delayOn noiseOn (m : ℚ) count nowT =
      (count, ((nowT + (count + 1) *
        (4 + (if delayOn then m else 0) + (if noiseOn then 2 + m else 0)) : Int) : ℚ)) := by
  unfold get_queue_status
  cases delayOn <;> cases noiseOn <;> simp <;> push_cast <;> ring

/-! ## Cache lemmas and C4 -/

theorem add_get_self (c : CacheMap) (pid : String) (doc : ProfileResponse)
    (ttl now0 : ℚ) :
    add_to_cache c pid doc ttl now0 pid = some (CacheEntry.make doc ttl now0) := by
  unfold add_to_cache
  simp

theorem get_after_add_fresh (c : CacheMap) (pid : String) (doc : ProfileResponse)
    (ttl now0 t : ℚ) (h : ¬ now0 + ttl < t) :
    get_from_cache (add_to_cache c pid doc ttl now0) pid t =
      (some doc, add_to_cache c pid doc ttl now0) := by
  unfold get_from_cache
  rw [add_get_self]
  have hexp : CacheEntry.is_expired ⟨doc, now0, now0 + ttl⟩ t = false := by
    simp only [CacheEntry.is_expired, decide_eq_false_iff_not]
    exact h
  simp [CacheEntry.make, hexp]

theorem get_after_add_stale (c : CacheMap) (pid : String) (doc : ProfileResponse)
    (ttl now0 t : ℚ) (h : now0 + ttl < t) :
    get_from_cache (add_to_cache c pid doc ttl now0) pid t =
      (none, fun k => if k = pid then none else add_to_cache c pid doc ttl now0 k) := by
  unfold get_from_cache
  rw [add_get_self]
  have hexp : CacheEntry.is_expired ⟨doc, now0, now0 + ttl⟩ t = true := by
    simp only [CacheEntry.is_expired, decide_eq_true_eq]
    exact h
  simp [CacheEntry.make, hexp]

/-- C4 counterexample: `is_expired` compares with a strict inequality, so
a `get` at exactly `created_at + ttl` still returns the document instead
of evicting it (put at time 0 with ttl 60, get at time 60). -/
theorem c4_counterexample :
    (get_from_cache (add_to_cache emptyCache "p" sampleDoc 60 0) "p" 60).1 = some sampleDoc ∧
    (get_from_cache (add_to_cache emptyCache "p" sampleDoc 60 0) "p" 60).1 ≠ none := by
  have h : get_from_cache (add_to_cache emptyCache "p" sampleDoc 60 0) "p" 60 =
      (some sampleDoc, add_to_cache emptyCache "p" sampleDoc 60 0) :=
    get_after_add_fresh emptyCache "p" sampleDoc 60 0 60 (by norm_num)
  rw [h]
  exact ⟨rfl, by simp⟩

/-- C4 (amended): after `put`, a `get` at or before `created_at + ttl`
returns the document (the boundary instant inclusive, since expiry is
strict); a `get` strictly after evicts the entry and returns absent, and
every subsequent `get` also returns absent. -/
theorem c4_cache_roundtrip (c : CacheMap) (pid : String) (doc : ProfileResponse)
    (ttl now0 t1 t2 : ℚ) :
    (t1 ≤ now0 + ttl →
      (get_from_cache (add_to_cache c pid doc ttl now0) pid t1).1 = some doc) ∧
    (now0 + ttl < t2 →
      (get_from_cache (add_to_cache c pid doc ttl now0) pid t2).1 = none ∧
      (get_from_cache (add_to_cache c pid doc ttl now0) pid t2).2 pid = none ∧
      ∀ t3, (get_from_cache
        ((get_from_cache (add_to_cache c pid doc ttl now0) pid t2).2) pid t3).1 = none) := by
  constructor
  · intro h1
    rw [get_after_add_fresh c pid doc ttl now0 t1 (by linarith)]
  · intro h2
    rw [get_after_add_stale c pid doc ttl now0 t2 h2]
    refine ⟨rfl, by simp, ?_⟩
    intro t3
    unfold get_from_cache
    simp

theorem c4_cache_roundtrip_witness :
    (get_from_cache (add_to_cache emptyCache "p" sampleDoc 60 0) "p" 30).1 = some sampleDoc ∧
    (get_from_cache (add_to_cache emptyCache "p" sampleDoc 60 0) "p" 61).1 = none ∧
    (get_from_cache (add_to_cache emptyCache "p" sampleDoc 60 0) "p" 61).2 "p" = none ∧
    (get_from_cache
      ((get_from_cache (add_to_cache emptyCache "p" sampleDoc 60 0) "p" 61).2) "p" 62).1 = none :=
  ⟨(c4_cache_roundtrip emptyCache "p" sampleDoc 60 0 30 61).1 (by norm_num),
   ((c4_cache_roundtrip emptyCache "p" sampleDoc 60 0 30 61).2 (by norm_num)).1,
   ((c4_cache_roundtrip emptyCache "p" sampleDoc 60 0 30 61).2 (by norm_num)).2.1,
   ((c4_cache_roundtrip emptyCache "p" sampleDoc 60 0 30 61).2 (by norm_num)).2.2 62⟩

/-! ## Classification (C3, C5) -/

/-- C3: the classification step is not total on raw payloads. A record
whose actor differs from the subject but carries no `image` payload makes
the unguarded `attributes[0]` access raise (first conjunct), in
contradiction with the claim that classification never raises; when the
first attribute is present but carries neither marker, the code does
degrade to all-null attribution (second conjunct, the claim's intended
behavior). -/
theorem c3_classification_raises :
    classify_post "urn:me" mismatchPostNoAttrs = .error "KeyError: image" ∧
    classify_post "urn:me" mismatchPostAttrs =
      .ok ⟨.repost, some "", none, none, none⟩ :=
  ⟨rfl, rfl⟩

/-- C5: an actor-identity mismatch short-circuits to repost before the
reshare-payload check: the classification result is independent of any
`resharedUpdate` payload, and whenever it succeeds the kind is repost. -/
theorem c5_repost_precedence (p : Post) (member_urn : String)
    (h : p.actor.urn ≠ member_urn) :
    (∀ ru, classify_post member_urn { p with resharedUpdate := ru } =
        classify_post member_urn { p with resharedUpdate := none }) ∧
    (∀ cls, classify_post member_urn p = .ok cls → cls.post_type = .repost) := by
  obtain ⟨actor, rsu, sd, comm⟩ := p
  constructor
  · intro ru
    show classify_post member_urn ⟨actor, ru, sd, comm⟩ =
      classify_post member_urn ⟨actor, none, sd, comm⟩
    unfold classify_post
    rw [if_pos h, if_pos h]
  · intro cls hcls
    unfold classify_post at hcls
    rw [if_pos h] at hcls
    cases hfa : firstAttribute actor with
    | error e =>
      rw [hfa] at hcls
      exact absurd hcls (by simp)
    | ok attr =>
      rw [hfa] at hcls
      rcases hattr : attribution attr with ⟨n, hl, cpy⟩
      simp only [hattr] at hcls
      cases hcls
      rfl

theorem c5_repost_precedence_witness :
    classify_post "urn:me" { mismatchPostAttrs with resharedUpdate := some sampleReshare } =
      classify_post "urn:me" { mismatchPostAttrs with resharedUpdate := none } ∧
    (⟨.repost, some "", none, none, none⟩ : Classified).post_type = .repost :=
  ⟨(c5_repost_precedence mismatchPostAttrs "urn:me" (by decide)).1 (some sampleReshare),
   (c5_repost_precedence mismatchPostAttrs "urn:me" (by decide)).2
     ⟨.repost, some "", none, none, none⟩ rfl⟩

/-! ## Queue accounting (C1) and falsy-profile behavior (C10) -/

/-- C1: on every cache miss, one `get_ingest` call sets the counter to
`count0 + 1` before the admission slot is acquired and back to `count0`
before the slot is released, on the success path and on the failure path
alike; the final counter equals the prior value and no counter value in
the trace is negative when the prior value was not. -/
theorem c1_queue_counter (cacheEnabled : Bool) (cache : CacheMap) (count0 : Int)
    (pid : String) (ttl nowQ : ℚ)
    (profileUpstream : Except String (Option RawProfile))
    (postsUpstream : Except String (Option (List Post))) (now : PyDateTime)
    (hmiss : (if cacheEnabled then get_from_cache cache pid nowQ else (none, cache)).1 = none) :
    (get_ingest_model cacheEnabled cache count0 pid ttl nowQ
        profileUpstream postsUpstream now).2.2.2 =
      [.counterSet (count0 + 1), .lockAcquire, .counterSet count0, .lockRelease] ∧
    (get_ingest_model cacheEnabled cache count0 pid ttl nowQ
        profileUpstream postsUpstream now).2.2.1 = count0 ∧
    (0 ≤ count0 → ∀ v, QEv.counterSet v ∈
      (get_ingest_model cacheEnabled cache count0 pid ttl nowQ
        profileUpstream postsUpstream now).2.2.2 → 0 ≤ v) := by
  have harith : count0 + 1 - 1 = count0 := by ring
  simp only [get_ingest_model, hmiss]
  cases hp : ingest_pipeline profileUpstream postsUpstream now with
  | ok doc =>
    refine ⟨by simp [hp, harith], by simp [hp, harith], ?_⟩
    intro h0 v hv
    simp only [hp, List.mem_cons, List.not_mem_nil, or_false] at hv
    rcases hv with h | h | h | h
    · simp only [QEv.counterSet.injEq] at h
      omega
    · exact absurd h (by simp)
    · simp only [QEv.counterSet.injEq] at h
      omega
    · exact absurd h (by simp)
  | error e =>
    refine ⟨by simp [hp, harith], by simp [hp, harith], ?_⟩
    intro h0 v hv
    simp only [hp, List.mem_cons, List.not_mem_nil, or_false] at hv
    rcases hv with h | h | h | h
    · simp only [QEv.counterSet.injEq] at h
      omega
    · exact absurd h (by simp)
    · simp only [QEv.counterSet.injEq] at h
      omega
    · exact absurd h (by simp)

theorem c1_queue_counter_witness :
    (if true then get_from_cache emptyCache "p" 0 else (none, emptyCache)).1 = none ∧
    (get_ingest_model true emptyCache 0 "p" 60 0 (.ok none) (.ok none) sampleNow).2.2.2 =
      [.counterSet 1, .lockAcquire, .counterSet 0, .lockRelease] ∧
    (get_ingest_model true emptyCache 0 "p" 60 0 (.ok none) (.ok none) sampleNow).2.2.1 = 0 :=
  ⟨rfl,
   (c1_queue_counter true emptyCache 0 "p" 60 0 (.ok none) (.ok none) sampleNow rfl).1,
   (c1_queue_counter true emptyCache 0 "p" 60 0 (.ok none) (.ok none) sampleNow rfl).2.1⟩

/-- C10: a falsy profile payload from the upstream client (no exception
raised upstream) makes the whole call behave exactly as if the upstream
fetch itself had raised: same result, same cache, same counter, same
trace; the error is `FetchException("profile")`, never a
`ParseException`, and the counter still comes back to its prior value. -/
theorem c10_falsy_profile (cacheEnabled : Bool) (cache : CacheMap) (count0 : Int)
    (pid : String) (ttl nowQ : ℚ)
    (postsUpstream : Except String (Option (List Post))) (now : PyDateTime) (msg : String)
    (hmiss : (if cacheEnabled then get_from_cache cache pid nowQ else (none, cache)).1 = none) :
    get_ingest_model cacheEnabled cache count0 pid ttl nowQ
        (.ok none) postsUpstream now =
      get_ingest_model cacheEnabled cache count0 pid ttl nowQ
        (.error msg) postsUpstream now ∧
    (get_ingest_model cacheEnabled cache count0 pid ttl nowQ
        (.ok none) postsUpstream now).1 = .error (.fetchExc "profile") ∧
    (∀ s, (get_ingest_model cacheEnabled cache count0 pid ttl nowQ
        (.ok none) postsUpstream now).1 ≠ .error (.parseExc s)) ∧
    (get_ingest_model cacheEnabled cache count0 pid ttl nowQ
        (.ok none) postsUpstream now).2.2.1 = count0 := by
  have hp1 : ingest_pipeline (.ok none) postsUpstream now = .error (.fetchExc "profile") := rfl
  have hp2 : ingest_pipeline (.error msg) postsUpstream now = .error (.fetchExc "profile") := rfl
  have hred1 : get_ingest_model cacheEnabled cache count0 pid ttl nowQ
      (.ok none) postsUpstream now =
      (.error (.fetchExc "profile"),
        (if cacheEnabled then get_from_cache cache pid nowQ else (none, cache)).2,
        count0 + 1 - 1,
        [.counterSet (count0 + 1), .lockAcquire, .counterSet (count0 + 1 - 1),
          .lockRelease]) := by
    simp only [get_ingest_model, hmiss, hp1]
  have hred2 : get_ingest_model cacheEnabled cache count0 pid ttl nowQ
      (.error msg) postsUpstream now =
      (.error (.fetchExc "profile"),
        (if cacheEnabled then get_from_cache cache pid nowQ else (none, cache)).2,
        count0 + 1 - 1,
        [.counterSet (count0 + 1), .lockAcquire, .counterSet (count0 + 1 - 1),
          .lockRelease]) := by
    simp only [get_ingest_model, hmiss, hp2]
  refine ⟨by rw [hred1, hred2], by rw [hred1], ?_, by rw [hred1]; show count0 + 1 - 1 = count0; ring⟩
  intro s
  rw [hred1]
  simp

theorem c10_falsy_profile_witness :
    get_ingest_model true emptyCache 0 "p" 60 0 (.ok none) (.ok none) sampleNow =
      get_ingest_model true emptyCache 0 "p" 60 0 (.error "boom") (.ok none) sampleNow ∧
    (get_ingest_model true emptyCache 0 "p" 60 0
      (.ok none) (.ok none) sampleNow).1 = .error (.fetchExc "profile") ∧
    (get_ingest_model true emptyCache 0 "p" 60 0
      (.ok none) (.ok none) sampleNow).2.2.1 = 0 :=
  ⟨(c10_falsy_profile true emptyCache 0 "p" 60 0 (.ok none) sampleNow "boom" rfl).1,
   (c10_falsy_profile true emptyCache 0 "p" 60 0 (.ok none) sampleNow "boom" rfl).2.1,
   (c10_falsy_profile true emptyCache 0 "p" 60 0 (.ok none) sampleNow "boom" rfl).2.2.2⟩

/-! ## Posts failure isolation (C2) -/

/-- C2: when formatting the posts collection raises, the transform still
succeeds (no exception reaches the caller), the posts section equals the
fixed failure placeholder, and every other field of the document equals
what a run without any posts payload produces. -/
theorem c2_posts_placeholder (p : RawProfile)
    (postsUpstream : Except String (Option (List Post))) (now : PyDateTime) (e : String)
    (h : posts_section (resolve_posts postsUpstream) p.member_urn = .error e) :
    ingest_pipeline (.ok (some p)) postsUpstream now =
      .ok (ingest_transform p (resolve_posts postsUpstream) now) ∧
    (ingest_transform p (resolve_posts postsUpstream) now).posts = postsFailureText ∧
    (ingest_transform p (resolve_posts postsUpstream) now).full_name =
      (ingest_transform p none now).full_name ∧
    (ingest_transform p (resolve_posts postsUpstream) now).summary =
      (ingest_transform p none now).summary ∧
    (ingest_transform p (resolve_posts postsUpstream) now).experience =
      (ingest_transform p none now).experience ∧
    (ingest_transform p (resolve_posts postsUpstream) now).education =
      (ingest_transform p none now).education ∧
    (ingest_transform p (resolve_posts postsUpstream) now).honors =
      (ingest_transform p none now).honors ∧
    (ingest_transform p (resolve_posts postsUpstream) now).certifications =
      (ingest_transform p none now).certifications ∧
    (ingest_transform p (resolve_posts postsUpstream) now).projects =
      (ingest_transform p none now).projects ∧
    (ingest_transform p (resolve_posts postsUpstream) now).publications =
      (ingest_transform p none now).publications ∧
    (ingest_transform p (resolve_posts postsUpstream) now).volunteer =
      (ingest_transform p none now).volunteer ∧
    (ingest_transform p (resolve_posts postsUpstream) now).skills =
      (ingest_transform p none now).skills ∧
    (ingest_transform p (resolve_posts postsUpstream) now).languages =
      (ingest_transform p none now).languages := by
  refine ⟨rfl, ?_, rfl, rfl, rfl, rfl, rfl, rfl, rfl, rfl, rfl, rfl, rfl⟩
  show posts_final (resolve_posts postsUpstream) p.member_urn = postsFailureText
  unfold posts_final
  rw [h]

theorem c2_posts_placeholder_witness :
    posts_section (resolve_posts (.ok (some [badPost]))) sampleProfile.member_urn =
      .error "KeyError: socialDetail" ∧
    ingest_pipeline (.ok (some sampleProfile)) (.ok (some [badPost])) sampleNow =
      .ok (ingest_transform sampleProfile (resolve_posts (.ok (some [badPost]))) sampleNow) ∧
    (ingest_transform sampleProfile (resolve_posts (.ok (some [badPost]))) sampleNow).posts =
      postsFailureText ∧
    (ingest_transform sampleProfile (resolve_posts (.ok (some [badPost]))) sampleNow).experience =
      (ingest_transform sampleProfile none sampleNow).experience :=
  ⟨rfl,
   (c2_posts_placeholder sampleProfile (.ok (some [badPost])) sampleNow
     "KeyError: socialDetail" rfl).1,
   (c2_posts_placeholder sampleProfile (.ok (some [badPost])) sampleNow
     "KeyError: socialDetail" rfl).2.1,
   (c2_posts_placeholder sampleProfile (.ok (some [badPost])) sampleNow
     "KeyError: socialDetail" rfl).2.2.2.2.1⟩

/-! ## Line and block shape lemmas (toward C7) -/

theorem goodStr_append_opt (a b : String) (ha : GoodStr a) (hb : b = "" ∨ GoodStr b) :
    GoodStr (a ++ b) := by
  rcases hb with hb | hb
  · subst hb
    rw [goodStr_iff] at ha ⊢
    obtain ⟨m, c, hm, hc⟩ := ha
    exact ⟨m, c, by rw [data_app]; simp [hm], hc⟩
  · exact goodStr_append a b hb

theorem lineEnded_append (a b : String) (hb : LineEnded b) : LineEnded (a ++ b) := by
  obtain ⟨m, c, hm, hc⟩ := hb
  exact ⟨a.data ++ m, c, by rw [data_app, hm, List.append_assoc], hc⟩

theorem lineEnded_append_opt (a b : String) (ha : LineEnded a) (hb : b = "" ∨ LineEnded b) :
    LineEnded (a ++ b) := by
  rcases hb with hb | hb
  · subst hb
    obtain ⟨m, c, hm, hc⟩ := ha
    exact ⟨m, c, by rw [data_app]; simp [hm], hc⟩
  · exact lineEnded_append a b hb

theorem lineEnded_snoc (x : String) (hx : GoodStr x) : LineEnded (x ++ "\n") := by
  rw [goodStr_iff] at hx
  obtain ⟨m, c, hm, hc⟩ := hx
  refine ⟨m, c, ?_, hc⟩
  rw [data_app, hm, show ("\n" : String).data = ['\n'] from rfl]
  simp

theorem lineEnded_label (lab s : String) (hs : GoodStr s) : LineEnded (lab ++ s ++ "\n") :=
  lineEnded_snoc _ (goodStr_append lab s hs)

theorem lineEnded_wrapTail (a : String) : LineEnded (a ++ "\n\"\"\"\n") := by
  refine ⟨a.data ++ ['\n', '"', '"'], '"', ?_, by decide⟩
  rw [data_app, show ("\n\"\"\"\n" : String).data = ['\n', '"', '"', '"', '\n'] from rfl]
  simp

theorem lineEnded_wrap (lab body : String) : LineEnded (wrapBlock lab body) := by
  unfold wrapBlock
  exact lineEnded_wrapTail _

theorem goodBlock_of_lineEnded (y : String) (hy : LineEnded y) : GoodBlock (y ++ "\n") := by
  obtain ⟨m, c, hm, hc⟩ := hy
  refine ⟨m, c, '\n', '\n', ?_, hc⟩
  rw [data_app, hm, show ("\n" : String).data = ['\n'] from rfl]
  simp

theorem goodBlock_comma_sep (x : String) (hx : GoodStr x) : GoodBlock (x ++ ", ") := by
  rw [goodStr_iff] at hx
  obtain ⟨m, c, hm, hc⟩ := hx
  refine ⟨m, c, ',', ' ', ?_, hc⟩
  rw [data_app, hm, show (", " : String).data = [',', ' '] from rfl]
  simp

theorem ite_lineEnded_cases {c : Prop} [Decidable c] (s : String) (hs : LineEnded s) :
    (if c then s else "") = "" ∨ LineEnded (if c then s else "") := by
  split
  · exact Or.inr hs
  · exact Or.inl rfl

theorem ite_goodStr_cases {c : Prop} [Decidable c] (s : String) (hs : GoodStr s) :
    (if c then s else "") = "" ∨ GoodStr (if c then s else "") := by
  split
  · exact Or.inr hs
  · exact Or.inl rfl

theorem optStr_cases_all (o : Option String) (f : String → String)
    (hf : ∀ s, LineEnded (f s)) :
    optStr o f = "" ∨ LineEnded (optStr o f) := by
  cases o with
  | none => exact Or.inl rfl
  | some s =>
    show (if s = "" then "" else f s) = "" ∨ LineEnded (if s = "" then "" else f s)
    split
    · exact Or.inl rfl
    · exact Or.inr (hf s)

theorem optStr_cases_nice (o : Option String) (f : String → String) (ho : NiceOpt o)
    (hf : ∀ s, GoodStr s → LineEnded (f s)) :
    optStr o f = "" ∨ LineEnded (optStr o f) := by
  cases o with
  | none => exact Or.inl rfl
  | some s =>
    show (if s = "" then "" else f s) = "" ∨ LineEnded (if s = "" then "" else f s)
    split
    · exact Or.inl rfl
    · exact Or.inr (hf s (ho s rfl))

theorem optStr_goodCases (o : Option String) (f : String → String) (ho : NiceOpt o)
    (hf : ∀ s, GoodStr s → GoodStr (f s)) :
    optStr o f = "" ∨ GoodStr (optStr o f) := by
  cases o with
  | none => exact Or.inl rfl
  | some s =>
    show (if s = "" then "" else f s) = "" ∨ GoodStr (if s = "" then "" else f s)
    split
    · exact Or.inl rfl
    · exact Or.inr (hf s (ho s rfl))

theorem optStr_goodCases_all (o : Option String) (f : String → String)
    (hf : ∀ s, GoodStr (f s)) :
    optStr o f = "" ∨ GoodStr (optStr o f) := by
  cases o with
  | none => exact Or.inl rfl
  | some s =>
    show (if s = "" then "" else f s) = "" ∨ GoodStr (if s = "" then "" else f s)
    split
    · exact Or.inl rfl
    · exact Or.inr (hf s)

theorem lineEnded_format_duration (tp : TimePeriod) :
    LineEnded (format_duration tp "DURATION: " "\n") := by
  obtain ⟨sd, ed⟩ := tp
  simp only [format_duration]
  cases ed with
  | none =>
    apply lineEnded_snoc
    exact goodStr_append _ _ ⟨by decide, by decide⟩
  | some d =>
    apply lineEnded_snoc
    exact goodStr_append _ _ (goodStr_fmtMonth d)

theorem durationPiece_cases (tp : Option TimePeriod) :
    durationPiece tp = "" ∨ LineEnded (durationPiece tp) := by
  cases tp with
  | none => exact Or.inl rfl
  | some t => exact Or.inr (lineEnded_format_duration t)

/-! ## Per-block shape lemmas -/

theorem goodStr_full_name (p : RawProfile) (h : GoodStr p.lastName) :
    GoodStr (full_name_of p) := by
  unfold full_name_of
  exact goodStr_append _ _ h

theorem goodBlock_experience (now : PyDateTime) (e : Experience)
    (he : SaneExperience e) : GoodBlock (experienceBlock now e) := by
  obtain ⟨ht, hc⟩ := he
  unfold experienceBlock
  apply goodBlock_of_lineEnded
  apply lineEnded_append_opt
  · apply lineEnded_append_opt
    · apply lineEnded_snoc
      apply goodStr_append_opt
      · exact goodStr_append _ _ ht
      · exact optStr_goodCases e.companyName _ hc (fun s hs => goodStr_append _ _ hs)
    · exact durationPiece_cases e.timePeriod
  · exact optStr_cases_all e.description _ (fun s => lineEnded_wrap _ s)

theorem goodBlock_education (now : PyDateTime) (ed : Education)
    (hed : SaneEducation ed) : GoodBlock (educationBlock now ed) := by
  obtain ⟨hschool, hdeg, hfield, hgrade⟩ := hed
  unfold educationBlock
  apply goodBlock_of_lineEnded
  apply lineEnded_append_opt
  · apply lineEnded_append_opt
    · apply lineEnded_append_opt
      · apply lineEnded_append_opt
        · apply lineEnded_append_opt
          · apply lineEnded_append_opt
            · exact lineEnded_snoc _ (goodStr_append _ _ hschool)
            · exact optStr_cases_nice ed.degreeName _ hdeg
                (fun s hs => lineEnded_label _ s hs)
          · exact optStr_cases_nice ed.fieldOfStudy _ hfield
              (fun s hs => lineEnded_label _ s hs)
        · exact durationPiece_cases ed.timePeriod
      · exact optStr_cases_nice ed.grade _ hgrade (fun s hs => lineEnded_label _ s hs)
    · exact optStr_cases_all ed.activities _ (fun s => lineEnded_wrap _ s)
  · exact optStr_cases_all ed.description _ (fun s => lineEnded_wrap _ s)

theorem goodBlock_project (now : PyDateTime) (full_name : String) (pr : Project)
    (hfn : GoodStr full_name) : GoodBlock (projectBlock now full_name pr) := by
  simp only [projectBlock]
  apply goodBlock_of_lineEnded
  apply lineEnded_append_opt
  · apply lineEnded_append_opt
    · apply lineEnded_snoc
      apply goodStr_append_opt
      · exact goodStr_append _ _ hfn
      · exact ite_goodStr_cases _ (goodStr_append _ _ ⟨by decide, by decide⟩)
    · exact durationPiece_cases pr.timePeriod
  · exact optStr_cases_all pr.description _ (fun s => lineEnded_wrap _ s)

theorem goodBlock_honor (h : Honor) (hh : SaneHonor h) : GoodBlock (honorBlock h) := by
  obtain ⟨ht, hi⟩ := hh
  unfold honorBlock
  apply goodBlock_of_lineEnded
  apply lineEnded_append_opt
  · apply lineEnded_append_opt
    · apply lineEnded_append_opt
      · exact lineEnded_snoc _ (goodStr_append _ _ ht)
      · exact optStr_cases_nice h.issuer _ hi (fun s hs => lineEnded_label _ s hs)
    · cases hd : h.issueDate with
      | none => exact Or.inl rfl
      | some d => exact Or.inr (lineEnded_label _ _ (goodStr_fmtDay d))
  · exact optStr_cases_all h.description _ (fun s => lineEnded_wrap _ s)

theorem goodBlock_certification (c : Certification) (hc : SaneCertification c) :
    GoodBlock (certificationBlock c) := by
  obtain ⟨hn, ha⟩ := hc
  unfold certificationBlock
  apply goodBlock_of_lineEnded
  apply lineEnded_append_opt
  · apply lineEnded_append_opt
    · apply lineEnded_append_opt
      · exact lineEnded_snoc _ (goodStr_append _ _ hn)
      · exact optStr_cases_nice c.authority _ ha (fun s hs => lineEnded_label _ s hs)
    · cases htp : c.timePeriod with
      | none => exact Or.inl rfl
      | some tp => exact Or.inr (lineEnded_label _ _ (goodStr_fmtDay tp.startDate))
  · exact optStr_cases_all c.description _ (fun s => lineEnded_wrap _ s)

theorem goodBlock_publication (full_name : String) (pub : Publication)
    (hfn : GoodStr full_name) (hp : SanePublication pub) :
    GoodBlock (publicationBlock full_name pub) := by
  unfold publicationBlock
  apply goodBlock_of_lineEnded
  apply lineEnded_append_opt
  · apply lineEnded_append_opt
    · apply lineEnded_append_opt
      · exact lineEnded_snoc _ (goodStr_append _ _ hp)
      · cases hau : pub.authors with
        | none => exact Or.inl rfl
        | some al =>
          show (if al.isEmpty = true then "" else
              "AUTHORS: " ++ full_name ++
                (if al.length > 1 then " and " ++ toString (al.length - 1) ++ " other(s)"
                 else "") ++ "\n") = "" ∨
            LineEnded (if al.isEmpty = true then "" else
              "AUTHORS: " ++ full_name ++
                (if al.length > 1 then " and " ++ toString (al.length - 1) ++ " other(s)"
                 else "") ++ "\n")
          split
          · exact Or.inl rfl
          · right
            apply lineEnded_snoc
            apply goodStr_append_opt
            · exact goodStr_append _ _ hfn
            · exact ite_goodStr_cases _ (goodStr_append _ _ ⟨by decide, by decide⟩)
    · cases hd : pub.date with
      | none => exact Or.inl rfl
      | some d => exact Or.inr (lineEnded_label _ _ (goodStr_fmtDay d))
  · exact optStr_cases_all pub.description _ (fun s => lineEnded_wrap _ s)

theorem goodBlock_volunteer (now : PyDateTime) (v : Volunteer)
    (hv : SaneVolunteer v) : GoodBlock (volunteerBlock now v) := by
  obtain ⟨hcm, hca⟩ := hv
  unfold volunteerBlock
  apply goodBlock_of_lineEnded
  apply lineEnded_append_opt
  · apply lineEnded_append_opt
    · apply lineEnded_append_opt
      · exact lineEnded_snoc _ (goodStr_append _ _ hcm)
      · exact optStr_cases_nice v.cause _ hca (fun s hs => lineEnded_label _ s hs)
    · exact durationPiece_cases v.timePeriod
  · exact optStr_cases_all v.description _ (fun s => lineEnded_wrap _ s)

theorem goodBlock_language (lg : LangEntry) (hn : GoodStr lg.name) :
    GoodBlock (languageBlock lg) := by
  unfold languageBlock
  apply goodBlock_comma_sep
  apply goodStr_append_opt
  · exact hn
  · exact optStr_goodCases_all lg.proficiency _ (fun s => goodStr_append _ _ ⟨by decide, by decide⟩)

theorem goodBlock_postBlock (cls : Classified) (sd : SocialCounts) (pc : Option String) :
    GoodBlock (postBlock cls sd pc) := by
  simp only [postBlock]
  apply goodBlock_of_lineEnded
  apply lineEnded_append_opt
  · apply lineEnded_append_opt
    · apply lineEnded_snoc
      exact goodStr_append _ _ (goodStr_intStr sd.numShares)
    · exact ite_lineEnded_cases _ (lineEnded_wrapTail _)
  · exact optStr_cases_all pc _ (fun s => lineEnded_wrapTail _)

/-! ## Section-level shape lemmas -/

theorem foldl_append_data (f : α → String) (l : List α) (init : String) :
    (l.foldl (fun acc e => acc ++ f e) init).data =
      init.data ++ (l.map (fun e => (f e).data)).flatten := by
  induction l generalizing init with
  | nil => simp
  | cons e t ih =>
    rw [List.foldl_cons, ih, List.map_cons, List.flatten_cons, data_app, List.append_assoc]

theorem flatten_goodBlocks (f : α → String) (l : List α) (hl : l ≠ [])
    (hb : ∀ e ∈ l, GoodBlock (f e)) :
    ∃ m c x y, (l.map (fun e => (f e).data)).flatten = m ++ [c, x, y] ∧ c ≠ '\n' := by
  induction l with
  | nil => exact absurd rfl hl
  | cons e t ih =>
    cases t with
    | nil =>
      obtain ⟨m, c, x, y, hm, hc⟩ := hb e (by simp)
      exact ⟨m, c, x, y, by simp [hm], hc⟩
    | cons e2 t2 =>
      obtain ⟨m, c, x, y, hm, hc⟩ := ih (by simp) (fun a ha => hb a (by simp [ha]))
      refine ⟨(f e).data ++ m, c, x, y, ?_, hc⟩
      rw [List.map_cons, List.flatten_cons, hm, List.append_assoc]

theorem dropLast_two (A m : List Char) (c x y : Char) :
    (A ++ (m ++ [c, x, y])).dropLast.dropLast = (A ++ m) ++ [c] := by
  have h : A ++ (m ++ [c, x, y]) = (((A ++ m) ++ [c]) ++ [x]) ++ [y] := by
    simp [List.append_assoc]
  rw [h, List.dropLast_concat, List.dropLast_concat]

theorem listSection_ok (hdr : String) (f : α → String) (l : List α)
    (hb : ∀ e ∈ l, GoodBlock (f e)) :
    SectionOk hdr (listSection hdr f l) := by
  cases l with
  | nil => exact Or.inl rfl
  | cons e t =>
    right
    obtain ⟨m, c, x, y, hm, hc⟩ := flatten_goodBlocks f (e :: t) (by simp) hb
    have hdata : (listSection hdr f (e :: t)).data = (hdr.data ++ m) ++ [c] := by
      show ((e :: t).foldl (fun acc a => acc ++ f a) hdr).data.dropLast.dropLast = _
      rw [foldl_append_data, hm, dropLast_two]
    refine ⟨?_, ?_, ?_⟩
    · rw [hdata]
      exact ⟨m ++ [c], (List.append_assoc _ _ _).symm⟩
    · rw [hdata]
      simp
    · rw [hdata, List.getLast?_concat]
      simp [hc]

theorem goodStr_joinComma (l : List String) (hl : l ≠ []) (h : ∀ s ∈ l, GoodStr s) :
    GoodStr (joinComma l) := by
  induction l with
  | nil => exact absurd rfl hl
  | cons s t ih =>
    cases t with
    | nil => exact h s (by simp)
    | cons s2 t2 =>
      show GoodStr ((s ++ ", ") ++ joinComma (s2 :: t2))
      exact goodStr_append _ _ (ih (by simp) (fun a ha => h a (by simp [ha])))

theorem skills_section_ok (skills : List Skill) (h : ∀ sk ∈ skills, GoodStr sk.name) :
    SectionOk "# SKILLS\n" (skills_section skills) := by
  cases skills with
  | nil => exact Or.inl rfl
  | cons sk t =>
    right
    have hjc : GoodStr (joinComma ((sk :: t).map Skill.name)) := by
      apply goodStr_joinComma
      · simp
      · intro s hs
        simp only [List.mem_map] at hs
        obtain ⟨a, ha, rfl⟩ := hs
        exact h a ha
    have hgood : GoodStr ("# SKILLS\n" ++ joinComma ((sk :: t).map Skill.name)) :=
      goodStr_append _ _ hjc
    refine ⟨?_, hgood.1, hgood.2⟩
    show ("# SKILLS\n" : String).data <+:
      ("# SKILLS\n" ++ joinComma ((sk :: t).map Skill.name)).data
    rw [data_app]
    exact ⟨_, rfl⟩

/-! ## Posts section shape lemmas -/

theorem format_post_goodBlock (urn : String) (p : Post) (b : String)
    (h : format_post urn p = .ok b) : GoodBlock b := by
  unfold format_post at h
  cases hc : classify_post urn p with
  | error e =>
    rw [hc] at h
    exact absurd h (by simp)
  | ok cls =>
    cases hsd : p.socialDetail with
    | none =>
      simp only [hc, hsd] at h
      exact absurd h (by simp)
    | some sd =>
      simp only [hc, hsd, Except.ok.injEq] at h
      rw [← h]
      exact goodBlock_postBlock cls sd p.commentary

theorem postsFold_ok (urn : String) (l : List Post) (acc s : String)
    (h : postsFold urn l acc = .ok s) :
    (l = [] ∧ s = acc) ∨
      ∃ m c x y, s.data = acc.data ++ (m ++ [c, x, y]) ∧ c ≠ '\n' := by
  induction l generalizing acc with
  | nil =>
    left
    unfold postsFold at h
    injection h with h2
    exact ⟨rfl, h2.symm⟩
  | cons p t ih =>
    unfold postsFold at h
    cases hfp : format_post urn p with
    | error e =>
      rw [hfp] at h
      exact absurd h (by simp)
    | ok b =>
      simp only [hfp] at h
      have hb := format_post_goodBlock urn p b hfp
      right
      rcases ih (acc ++ b) h with ⟨_, h1⟩ | ⟨m, c, x, y, hm, hc⟩
      · obtain ⟨mb, cb, xb, yb, hmb, hcb⟩ := hb
        exact ⟨mb, cb, xb, yb, by rw [h1, data_app, hmb], hcb⟩
      · refine ⟨b.data ++ m, c, x, y, ?_, hc⟩
        rw [hm, data_app]
        simp [List.append_assoc]

theorem posts_final_ok (raw : Option (List Post)) (urn : String) :
    posts_final raw urn = postsFailureText ∨ SectionOk "# POSTS\n" (posts_final raw urn) := by
  unfold posts_final
  cases hps : posts_section raw urn with
  | error e => exact Or.inl rfl
  | ok s =>
    right
    unfold posts_section at hps
    cases raw with
    | none =>
      injection hps with h2
      rw [← h2]
      exact Or.inl rfl
    | some l =>
      cases l with
      | nil =>
        simp only [List.isEmpty_nil, if_true] at hps
        injection hps with h2
        rw [← h2]
        exact Or.inl rfl
      | cons p t =>
        simp only [List.isEmpty_cons, Bool.false_eq_true, if_false] at hps
        cases hpf : postsFold urn (p :: t) "# POSTS\n" with
        | error e =>
          rw [hpf] at hps
          exact absurd hps (by simp)
        | ok s2 =>
          simp only [hpf, Except.ok.injEq] at hps
          rcases postsFold_ok urn (p :: t) "# POSTS\n" s2 hpf with ⟨hnil, _⟩ | ⟨m, c, x, y, hm, hc⟩
          · exact absurd hnil (by simp)
          · right
            have hdata : s.data = (("# POSTS\n" : String).data ++ m) ++ [c] := by
              rw [← hps]
              show s2.data.dropLast.dropLast = _
              rw [hm, dropLast_two]
            refine ⟨?_, ?_, ?_⟩
            · rw [hdata]
              exact ⟨m ++ [c], (List.append_assoc _ _ _).symm⟩
            · rw [hdata]
              simp
            · rw [hdata, List.getLast?_concat]
              simp [hc]

/-! ## C7: section well-formedness -/

/-- C7 counterexample: the document produced for a malformed posts
payload has a nonempty posts section (the failure placeholder) that ends
in a newline, violating the claimed no-trailing-newline invariant. -/
theorem c7_counterexample :
    (ingest_transform sampleProfile (some [badPost]) sampleNow).posts ≠ "" ∧
    (ingest_transform sampleProfile (some [badPost]) sampleNow).posts.data.getLast? =
      some '\n' := by
  have h : (ingest_transform sampleProfile (some [badPost]) sampleNow).posts =
      postsFailureText := rfl
  rw [h]
  exact ⟨by decide, by decide⟩

/-- C7 (amended): for raw payloads whose inline text fields are nonempty
and do not end in a newline, every text section of the produced document
except posts is either empty or begins with its `# SECTION NAME` header
and does not end in a newline; the posts section additionally admits the
fixed failure placeholder, which begins with `# POSTS` but ends with a
trailing newline. -/
theorem c7_sections_wellformed (p : RawProfile) (rawPosts : Option (List Post))
    (now : PyDateTime) (hs : SaneProfile p) :
    SectionOk "# EXPERIENCES\n" (ingest_transform p rawPosts now).experience ∧
    SectionOk "# EDUCATION\n" (ingest_transform p rawPosts now).education ∧
    SectionOk "# HONORS\n" (ingest_transform p rawPosts now).honors ∧
    SectionOk "# LICENSES AND CERTIFICATIONS\n"
      (ingest_transform p rawPosts now).certifications ∧
    SectionOk "# PROJECTS\n" (ingest_transform p rawPosts now).projects ∧
    SectionOk "# PUBLICATIONS\n" (ingest_transform p rawPosts now).publications ∧
    SectionOk "# LANGUAGES\n" (ingest_transform p rawPosts now).languages ∧
    SectionOk "# VOLUNTEER\n" (ingest_transform p rawPosts now).volunteer ∧
    SectionOk "# SKILLS\n" (ingest_transform p rawPosts now).skills ∧
    ((ingest_transform p rawPosts now).posts = postsFailureText ∨
      SectionOk "# POSTS\n" (ingest_transform p rawPosts now).posts) := by
  obtain ⟨hlast, hexp, hedu, hhon, hcert, hpub, hvol, hskill, hlang⟩ := hs
  have hfn : GoodStr (full_name_of p) := goodStr_full_name p hlast
  refine ⟨?_, ?_, ?_, ?_, ?_, ?_, ?_, ?_, ?_, ?_⟩
  · exact listSection_ok _ _ _ (fun e he => goodBlock_experience now e (hexp e he))
  · exact listSection_ok _ _ _ (fun ed he => goodBlock_education now ed (hedu ed he))
  · exact listSection_ok _ _ _ (fun h he => goodBlock_honor h (hhon h he))
  · exact listSection_ok _ _ _ (fun c he => goodBlock_certification c (hcert c he))
  · exact listSection_ok _ _ _ (fun pr _ => goodBlock_project now (full_name_of p) pr hfn)
  · exact listSection_ok _ _ _
      (fun pub he => goodBlock_publication (full_name_of p) pub hfn (hpub pub he))
  · exact listSection_ok _ _ _ (fun lg he => goodBlock_language lg (hlang lg he))
  · exact listSection_ok _ _ _ (fun v he => goodBlock_volunteer now v (hvol v he))
  · exact skills_section_ok _ hskill
  · exact posts_final_ok rawPosts p.member_urn

theorem richProfile_sane : SaneProfile richProfile := by
  refine ⟨⟨by decide, by decide⟩, ?_, ?_, ?_, ?_, ?_, ?_, ?_, ?_⟩
  · intro e he
    simp only [richProfile, List.mem_singleton] at he
    subst he
    refine ⟨⟨by decide, by decide⟩, ?_⟩
    intro s hs
    cases hs
    exact ⟨by decide, by decide⟩
  · intro ed he
    simp only [richProfile, List.mem_singleton] at he
    subst he
    refine ⟨⟨by decide, by decide⟩, ?_, ?_, ?_⟩
    · intro s hs
      cases hs
      exact ⟨by decide, by decide⟩
    · intro s hs
      cases hs
    · intro s hs
      cases hs
  · intro h he
    simp only [richProfile, List.mem_singleton] at he
    subst he
    refine ⟨⟨by decide, by decide⟩, ?_⟩
    intro s hs
    cases hs
  · intro c he
    simp only [richProfile, List.mem_singleton] at he
    subst he
    refine ⟨⟨by decide, by decide⟩, ?_⟩
    intro s hs
    cases hs
  · intro pub he
    simp only [richProfile, List.mem_singleton] at he
    subst he
    exact ⟨by decide, by decide⟩
  · intro v he
    simp only [richProfile, List.mem_singleton] at he
    subst he
    refine ⟨⟨by decide, by decide⟩, ?_⟩
    intro s hs
    cases hs
  · intro sk hsk
    simp only [richProfile, List.mem_cons, List.mem_singleton, List.not_mem_nil,
      or_false] at hsk
    rcases hsk with h | h <;> subst h <;> exact ⟨by decide, by decide⟩
  · intro lg he
    simp only [richProfile, List.mem_singleton] at he
    subst he
    exact ⟨by decide, by decide⟩

theorem c7_sections_wellformed_witness :
    SaneProfile richProfile ∧
    SectionOk "# EXPERIENCES\n" (ingest_transform richProfile none sampleNow).experience ∧
    SectionOk "# SKILLS\n" (ingest_transform richProfile none sampleNow).skills ∧
    ((ingest_transform richProfile none sampleNow).posts = postsFailureText ∨
      SectionOk "# POSTS\n" (ingest_transform richProfile none sampleNow).posts) :=
  ⟨richProfile_sane,
   (c7_sections_wellformed richProfile none sampleNow richProfile_sane).1,
   (c7_sections_wellformed richProfile none sampleNow richProfile_sane).2.2.2.2.2.2.2.2.1,
   (c7_sections_wellformed richProfile none sampleNow richProfile_sane).2.2.2.2.2.2.2.2.2⟩
